import Mathlib

/-!
Shallow embedding of the HiFi music backend (src/main.py): the format
selection, metadata normalization, artist heuristic and the HTTP endpoints
built on them, together with theorems settling the specification claims.
-/

namespace HifiBackend

/-- A JSON numeric field exactly as the external engine may deliver it:
missing from the mapping, present but null, or an actual number. -/
inductive JNum where
  | absent : JNum
  | null : JNum
  | num : Int → JNum
deriving DecidableEq

/-- Python mapping access with a default, dict.get(key, d): the default is
used only when the key is missing; an explicit null comes back as None,
modelled by the none case of the result. -/
def jGetD : JNum → Int → Option Int
  | JNum.absent, d => some d
  | JNum.null, _ => none
  | JNum.num n, _ => some n

/-- Python truthiness fallback x or 0: None and 0 give 0, any other number
gives itself. -/
def pyOrZero : Option Int → Int
  | none => 0
  | some n => if n = 0 then 0 else n

/-- One candidate delivery format of an entry, as delivered by the engine.
A none value for acodec, vcodec or url models a missing (or null) field,
which Python dict.get reads as None. -/
structure Format where
  acodec : Option String
  vcodec : Option String
  abr : JNum
  url : Option String
deriving DecidableEq

/-- Result of a successful single-video extraction (watch-page lookup). -/
structure Info where
  title : Option String
  album : Option String
  thumbnail : Option String
  duration : JNum
  abr : JNum
  formats : List Format
  url : Option String
deriving DecidableEq

/-- One flat search entry as delivered by the engine for a search query. -/
structure SEntry where
  id : Option String
  title : Option String
  album : Option String
  thumbnail : Option String
  duration : JNum
  url : Option String
  formats : List Format
deriving DecidableEq

/-- The object returned by the engine for a search: the entries field may be
missing, which result.get reads as the empty list default. -/
structure SearchEngineResult where
  entries : Option (List (Option SEntry))
deriving DecidableEq

/-- Outcome of an HTTP handler: a 200 body, or an HTTPException carrying a
status code and a detail string. -/
inductive HttpResult (α : Type) where
  | ok : α → HttpResult α
  | httpError : Nat → String → HttpResult α
deriving DecidableEq

/-- Python whitespace, as stripped by str.strip with no argument. -/
def pyIsSpace (c : Char) : Bool :=
  c == ' ' || c == '\t' || c == '\n' || c == '\r' || c == '\x0b' || c == '\x0c'

/-- Python str.strip: remove leading and trailing whitespace characters. -/
def pyStrip (l : List Char) : List Char :=
  ((l.dropWhile pyIsSpace).reverse.dropWhile pyIsSpace).reverse

/-- Anchored search of the first regular expression of extract_artist, which
captures one or more characters other than a hyphen at the start of the
string, followed by optional whitespace and a hyphen. The greedy capture is
every character before the first hyphen; the pattern fails when the string
has no hyphen or starts with one. -/
def reHyphen (l : List Char) : Option (List Char) :=
  let p := l.takeWhile (fun c => c != '-')
  if p.length = 0 then none
  else if p.length = l.length then none
  else some p

/-- Anchored search of the second regular expression of extract_artist, the
same shape with a colon in place of the hyphen. -/
def reColon (l : List Char) : Option (List Char) :=
  let p := l.takeWhile (fun c => c != ':')
  if p.length = 0 then none
  else if p.length = l.length then none
  else some p

/-- Unanchored search of the third regular expression of extract_artist: at
each position, an opening parenthesis followed by one or more characters
other than a closing parenthesis and then a closing parenthesis; the scan
resumes at the next position on a local failure. -/
def reParen : List Char → Option (List Char)
  | [] => none
  | c :: rest =>
      if c = '(' then
        let p := rest.takeWhile (fun d => d != ')')
        if p.length ≠ 0 ∧ p.length < rest.length then some p else reParen rest
      else reParen rest

/-- extract_artist from src/main.py: try the hyphen, colon and parenthesis
patterns in that order, return the stripped first capture group of the first
pattern that matches, and the literal fallback when none does. -/
def extract_artist (title : String) : String :=
  match reHyphen title.data with
  | some g => String.mk (pyStrip g)
  | none =>
    match reColon title.data with
    | some g => String.mk (pyStrip g)
    | none =>
      match reParen title.data with
      | some g => String.mk (pyStrip g)
      | none => "Unknown Artist"

/-- Duration normalization, (entry.get(duration-key, 0) or 0) * 1000. -/
def durMs (j : JNum) : Int := pyOrZero (jGetD j 0) * 1000

/-- The public track record built by the search path; it has exactly the
fields the search loop writes, and in particular no audio url field. -/
structure STrack where
  id : Option String
  title : String
  artist : String
  album : String
  cover_url : Option String
  duration : Int
  quality : String
deriving DecidableEq

/-- The body of the per-entry loop in search_youtube. -/
def mkSearchTrack (e : SEntry) : STrack :=
  { id := e.id
    title := e.title.getD "Unknown"
    artist := extract_artist (e.title.getD "")
    album := e.album.getD "Unknown"
    cover_url := e.thumbnail
    duration := durMs e.duration
    quality := "High" }

/-- The entries loop of search_youtube: append a track for every truthy
entry, skip the falsy ones. -/
def buildTracks : List (Option SEntry) → List STrack
  | [] => []
  | some e :: rest => mkSearchTrack e :: buildTracks rest
  | none :: rest => buildTracks rest

/-- search_youtube from src/main.py, with the engine call abstracted as an
input: any engine exception is caught and gives the empty list, otherwise
the entries are mapped through the track builder. -/
def search_youtube (res : Except String SearchEngineResult) : List STrack :=
  match res with
  | Except.error _ => []
  | Except.ok r => buildTracks (r.entries.getD [])

/-- Body of a successful search response. -/
structure SearchBody where
  status : String
  tracks : List STrack
  artists : List String
  albums : List String
deriving DecidableEq

/-- GET /api/search: a falsy query string gives a 400, otherwise the
response is always a success envelope around the search results. -/
def search (q : String) (res : Except String SearchEngineResult) : HttpResult SearchBody :=
  if q = "" then HttpResult.httpError 400 "Query parameter q is required"
  else HttpResult.ok { status := "success", tracks := search_youtube res, artists := [], albums := [] }

/-- The audio filter of get_stream_url: formats whose acodec field is not
the string value none; a missing acodec passes the filter. -/
def pyAudioPresent (f : Format) : Bool := decide (f.acodec ≠ some "none")

/-- The filtered list audio_formats of get_stream_url. -/
def audioFormats (info : Info) : List Format := info.formats.filter pyAudioPresent

/-- The sort key x.get(abr-key, 0) of get_stream_url: a missing bitrate
defaults to 0, an explicit null comes back as the Python None value, which
is not comparable with a number. -/
def abrKey (f : Format) : Option Int := jGetD f.abr 0

/-- Python max with a key function: keep the running best and replace it
only on a strictly larger key, so ties stay with the first occurrence; a
comparison involving None raises, modelled by the error case. -/
def pyMaxGo : Format → List Format → Except Unit Format
  | best, [] => Except.ok best
  | best, g :: gs =>
      match abrKey g, abrKey best with
      | some a, some b => if b < a then pyMaxGo g gs else pyMaxGo best gs
      | _, _ => Except.error ()

/-- get_stream_url from src/main.py after a successful extraction: take the
maximal audio format by bitrate key, else fall back to the top-level url of
the entry; a raised comparison is caught and gives None. The quality
argument is accepted and never read, as in the source. -/
def get_stream_url (info : Info) (quality : String) : Option String :=
  match audioFormats info with
  | [] => info.url
  | f :: fs =>
      match pyMaxGo f fs with
      | Except.ok best => best.url
      | Except.error _ => none

/-- get_stream_url including the engine call: an engine exception is caught
by the same handler and gives None. -/
def get_stream_url_full (engine : Except String Info) (quality : String) : Option String :=
  match engine with
  | Except.error _ => none
  | Except.ok info => get_stream_url info quality

/-- Body of a successful stream response. -/
structure StreamBody where
  status : String
  stream_url : String
  quality : String
  expires_at : Option Int
deriving DecidableEq

/-- Body of a successful download response. -/
structure DownloadBody where
  status : String
  download_url : String
  quality : String
  file_size : Option Int
  expires_at : Option Int
deriving DecidableEq

/-- GET /api/stream: 404 when the resolved url is falsy (None or the empty
string), else a success envelope echoing the quality argument. -/
def get_stream (engine : Except String Info) (quality : String) : HttpResult StreamBody :=
  match get_stream_url_full engine quality with
  | none => HttpResult.httpError 404 "Stream URL not found"
  | some u =>
      if u = "" then HttpResult.httpError 404 "Stream URL not found"
      else HttpResult.ok { status := "success", stream_url := u, quality := quality, expires_at := none }

/-- GET /api/download: identical selection, different envelope. -/
def get_download (engine : Except String Info) (quality : String) : HttpResult DownloadBody :=
  match get_stream_url_full engine quality with
  | none => HttpResult.httpError 404 "Download URL not found"
  | some u =>
      if u = "" then HttpResult.httpError 404 "Download URL not found"
      else
        HttpResult.ok
          { status := "success", download_url := u, quality := quality,
            file_size := none, expires_at := none }

/-- Body of a successful single-track response. -/
structure TrackBody where
  id : String
  title : Option String
  artist : String
  album : String
  cover_url : Option String
  duration : Int
  quality : String
  bitrate : String
  sample_rate : String
deriving DecidableEq

/-- The bitrate display string of the track endpoint: a missing abr shows
the default 128, an explicit null prints the None value. -/
def bitrateStr (j : JNum) : String :=
  match jGetD j 128 with
  | none => "None kbps"
  | some n => toString n ++ " kbps"

/-- GET /api/track: any caught exception becomes a 404 whose detail is the
raw exception text; a successful extraction is normalized into the track
detail body. -/
def get_track (track_id : String) (engine : Except String Info) : HttpResult TrackBody :=
  match engine with
  | Except.error e => HttpResult.httpError 404 e
  | Except.ok info =>
      HttpResult.ok
        { id := track_id
          title := info.title
          artist := extract_artist (info.title.getD "")
          album := info.album.getD "Unknown"
          cover_url := info.thumbnail
          duration := durMs info.duration
          quality := "High"
          bitrate := bitrateStr info.abr
          sample_rate := "44.1 kHz" }

/-- Specification-side bitrate key: the reported bitrate with an unknown
bitrate defaulted to zero. -/
def abrKeyD (f : Format) : Int := (abrKey f).getD 0

/-- Specification-side predicate: g attains the maximal bitrate key among
the formats of l. -/
def isMaxIn (l : List Format) (g : Format) : Bool :=
  l.all (fun g2 => decide (abrKeyD g2 ≤ abrKeyD g))

/-- Specification-side selection, following the words of the spec: the
first format of the list whose reported bitrate (unknown defaulted to zero)
is maximal, so that ties resolve to the first-encountered format. -/
def firstMax (l : List Format) : Option Format := l.find? (isMaxIn l)

/-- Specification-side audio-only test, following the words of the spec:
audio codec present and video codec absent. -/
def isAudioOnly (f : Format) : Bool :=
  decide (f.acodec ≠ some "none") && decide (f.vcodec = some "none")

/-- Specification-side selection policy 1, following the words of the spec:
the url of the first audio-only format in list order, else the top-level
url of the entry. -/
def specPolicy1 (e : SEntry) : Option String :=
  match e.formats.find? isAudioOnly with
  | some f => f.url
  | none => e.url

/-- Whether any field of a search track mentions the given url string. -/
def trackMentionsUrl (t : STrack) (u : String) : Bool :=
  decide (t.id = some u) || decide (t.title = u) || decide (t.artist = u) ||
  decide (t.album = u) || decide (t.cover_url = some u) || decide (t.quality = u)


/-! ## Helper lemmas -/

theorem abrKey_of_ne_null (f : Format) (h : f.abr ≠ JNum.null) :
    abrKey f = some (abrKeyD f) := by
  cases habr : f.abr with
  | absent => simp [abrKey, abrKeyD, jGetD, habr]
  | null => exact absurd habr h
  | num n => simp [abrKey, abrKeyD, jGetD, habr]

theorem find?_congrOn (p q : Format → Bool) :
    ∀ l : List Format, (∀ x ∈ l, p x = q x) → l.find? p = l.find? q := by
  intro l
  induction l with
  | nil => intro _; rfl
  | cons a t ih =>
    intro h
    have ha : p a = q a := h a (List.mem_cons_self a t)
    cases hp : p a with
    | true =>
      rw [List.find?_cons_of_pos t hp, List.find?_cons_of_pos t (ha ▸ hp)]
    | false =>
      rw [List.find?_cons_of_neg t (by simp [hp]), List.find?_cons_of_neg t (by simp [← ha, hp])]
      exact ih (fun x hx => h x (List.mem_cons_of_mem a hx))

theorem isMaxIn_iff (l : List Format) (g : Format) :
    isMaxIn l g = true ↔ ∀ x ∈ l, abrKeyD x ≤ abrKeyD g := by
  simp [isMaxIn]

theorem isMaxIn_cons (a : Format) (l : List Format) (g : Format) :
    isMaxIn (a :: l) g = (decide (abrKeyD a ≤ abrKeyD g) && isMaxIn l g) := by
  simp [isMaxIn, List.all_cons]

theorem firstMax_cons_of_lt (x y : Format) (l : List Format)
    (h : abrKeyD x < abrKeyD y) :
    firstMax (x :: y :: l) = firstMax (y :: l) := by
  unfold firstMax
  have hx : ¬ (isMaxIn (x :: y :: l) x = true) := by
    rw [isMaxIn_iff]
    intro hall
    have hyx := hall y (by simp)
    omega
  rw [List.find?_cons_of_neg _ hx]
  apply find?_congrOn
  intro z hz
  cases hM : isMaxIn (y :: l) z with
  | true =>
    have hyz : abrKeyD y ≤ abrKeyD z := ((isMaxIn_iff _ _).mp hM) y (by simp)
    have hxz : abrKeyD x ≤ abrKeyD z := by omega
    rw [isMaxIn_cons, hM]
    simp [hxz]
  | false =>
    rw [isMaxIn_cons, hM, Bool.and_false]

theorem firstMax_cons_of_ge (x y : Format) (l : List Format)
    (h : abrKeyD y ≤ abrKeyD x) :
    firstMax (x :: y :: l) = firstMax (x :: l) := by
  unfold firstMax
  cases hx : isMaxIn (x :: y :: l) x with
  | true =>
    have hx2 : isMaxIn (x :: l) x = true := by
      rw [isMaxIn_iff] at hx ⊢
      intro w hw
      apply hx
      rcases List.mem_cons.mp hw with hwx | hw2
      · simp [hwx]
      · simp [hw2]
    rw [List.find?_cons_of_pos _ hx, List.find?_cons_of_pos _ hx2]
  | false =>
    have hx2 : isMaxIn (x :: l) x = false := by
      cases hc : isMaxIn (x :: l) x with
      | false => rfl
      | true =>
        exfalso
        rw [isMaxIn_iff] at hc
        have hall : isMaxIn (x :: y :: l) x = true := by
          rw [isMaxIn_iff]
          intro w hw
          rcases List.mem_cons.mp hw with hwx | hw2
          · rw [hwx]
          · rcases List.mem_cons.mp hw2 with hwy | hw3
            · rw [hwy]; exact h
            · exact hc w (by simp [hw3])
        rw [hall] at hx
        cases hx
    have hy : isMaxIn (x :: y :: l) y = false := by
      cases hc : isMaxIn (x :: y :: l) y with
      | false => rfl
      | true =>
        exfalso
        rw [isMaxIn_iff] at hc
        have hxy : abrKeyD x ≤ abrKeyD y := hc x (by simp)
        have hall : isMaxIn (x :: y :: l) x = true := by
          rw [isMaxIn_iff]
          intro w hw
          have hwy := hc w hw
          omega
        rw [hall] at hx
        cases hx
    rw [List.find?_cons_of_neg _ (by simp [hx]), List.find?_cons_of_neg _ (by simp [hy]),
      List.find?_cons_of_neg _ (by simp [hx2])]
    apply find?_congrOn
    intro z hz
    by_cases hxz : abrKeyD x ≤ abrKeyD z
    · have hyz : abrKeyD y ≤ abrKeyD z := le_trans h hxz
      simp [isMaxIn_cons, hxz, hyz]
    · simp [isMaxIn_cons, hxz]

theorem pyMaxGo_firstMax : ∀ (rest : List Format) (best : Format),
    (∀ f ∈ best :: rest, f.abr ≠ JNum.null) →
    ∃ m, firstMax (best :: rest) = some m ∧ pyMaxGo best rest = Except.ok m := by
  intro rest
  induction rest with
  | nil =>
    intro best _
    refine ⟨best, ?_, rfl⟩
    unfold firstMax
    rw [List.find?_cons_of_pos]
    rw [isMaxIn_iff]
    intro w hw
    rcases List.mem_cons.mp hw with h1 | h2
    · subst h1; exact le_refl _
    · cases h2
  | cons g gs ih =>
    intro best h
    have hbn : best.abr ≠ JNum.null := h best (by simp)
    have hgn : g.abr ≠ JNum.null := h g (by simp)
    have hb := abrKey_of_ne_null best hbn
    have hg := abrKey_of_ne_null g hgn
    by_cases hlt : abrKeyD best < abrKeyD g
    · have hstep : pyMaxGo best (g :: gs) = pyMaxGo g gs := by
        simp [pyMaxGo, hb, hg, hlt]
      obtain ⟨m, h1, h2⟩ := ih g (by
        intro f hf
        apply h
        rcases List.mem_cons.mp hf with h3 | h4
        · subst h3; simp
        · simp [h4])
      exact ⟨m, by rw [firstMax_cons_of_lt best g gs hlt]; exact h1, by rw [hstep]; exact h2⟩
    · have hle : abrKeyD g ≤ abrKeyD best := not_lt.mp hlt
      have hstep : pyMaxGo best (g :: gs) = pyMaxGo best gs := by
        simp [pyMaxGo, hb, hg, hlt]
      obtain ⟨m, h1, h2⟩ := ih best (by
        intro f hf
        apply h
        rcases List.mem_cons.mp hf with h3 | h4
        · subst h3; simp
        · simp [h4])
      exact ⟨m, by rw [firstMax_cons_of_ge best g gs hle]; exact h1, by rw [hstep]; exact h2⟩


/-! ## Concrete inputs used by witnesses and counterexamples -/

/-- Entry for the claim C1 witness: a video-only format, two audio formats
with numeric bitrates and one with a missing bitrate. -/
def c1info : Info :=
  { title := some "x", album := none, thumbnail := none, duration := JNum.absent,
    abr := JNum.absent,
    formats :=
      [ { acodec := some "none", vcodec := some "avc1", abr := JNum.num 500, url := some "http://video" },
        { acodec := some "mp4a", vcodec := some "none", abr := JNum.num 64, url := some "http://a64" },
        { acodec := some "opus", vcodec := none, abr := JNum.num 160, url := some "http://a160" },
        { acodec := none, vcodec := some "none", abr := JNum.absent, url := some "http://aunk" } ],
    url := some "http://top1" }

/-- Claim C1: on an entry whose audio-present formats all report a numeric
or missing bitrate, get_stream_url returns the url field of the first
format attaining the maximal bitrate key (missing bitrate defaulted to
zero, ties to the first-encountered format), and falls back to the
top-level url of the entry exactly when the audio-present set is empty. -/
theorem claim1_stream_url_policy (info : Info) (q : String)
    (h : ∀ f ∈ audioFormats info, f.abr ≠ JNum.null) :
    (audioFormats info = [] → get_stream_url info q = info.url)
    ∧ (∀ best, firstMax (audioFormats info) = some best → get_stream_url info q = best.url)
    ∧ (audioFormats info ≠ [] → (firstMax (audioFormats info)).isSome = true) := by
  refine ⟨?_, ?_, ?_⟩
  · intro he
    unfold get_stream_url
    rw [he]
  · intro best hbest
    cases hl : audioFormats info with
    | nil =>
      rw [hl] at hbest
      simp [firstMax] at hbest
    | cons f fs =>
      rw [hl] at h
      obtain ⟨m, h1, h2⟩ := pyMaxGo_firstMax fs f h
      rw [hl] at hbest
      rw [h1] at hbest
      injection hbest with hmb
      simp only [get_stream_url, hl, h2, hmb]
  · intro hne
    cases hl : audioFormats info with
    | nil => exact absurd hl hne
    | cons f fs =>
      rw [hl] at h
      obtain ⟨m, h1, _⟩ := pyMaxGo_firstMax fs f h
      rw [h1]
      rfl

/-- Witness for claim C1 at a concrete entry: the 160 kbps format wins. -/
theorem claim1_witness :
    get_stream_url c1info "high" = some "http://a160" :=
  (claim1_stream_url_policy c1info "high" (by decide)).2.1
    { acodec := some "opus", vcodec := none, abr := JNum.num 160, url := some "http://a160" }
    (by decide)

/-- Entry for the claim C2 counterexample: it carries two audio-only
formats, the first with the lower bitrate. -/
def c2entry : SEntry :=
  { id := some "vid2", title := some "PlainTitle", album := none, thumbnail := none,
    duration := JNum.num 10, url := some "http://toplevel",
    formats :=
      [ { acodec := some "mp4a", vcodec := some "none", abr := JNum.num 64, url := some "http://firstaudio" },
        { acodec := some "opus", vcodec := some "none", abr := JNum.num 256, url := some "http://higher" } ] }

/-- Claim C2 counterexample: an entry on the search path with audio-only
formats, whose first audio-only url the claimed policy 1 would select; the
track actually emitted for it carries that url in none of its fields, so no
selected audio url is returned at all. -/
theorem claim2_counterexample :
    (c2entry.formats.find? isAudioOnly).isSome = true
    ∧ specPolicy1 c2entry = some "http://firstaudio"
    ∧ search_youtube (Except.ok ⟨some [some c2entry]⟩)
        = [{ id := some "vid2", title := "PlainTitle", artist := "Unknown Artist",
             album := "Unknown", cover_url := none, duration := 10000, quality := "High" }]
    ∧ (∀ t ∈ search_youtube (Except.ok ⟨some [some c2entry]⟩),
        trackMentionsUrl t "http://firstaudio" = false) := by decide

/-- Claim C2 amended: the search path of this variant performs no format
selection at all; the track emitted for an entry is independent of the
formats list and of the top-level url of the entry, and has no audio url
field. -/
theorem claim2_amended (e : SEntry) (F1 F2 : List Format) (u1 u2 : Option String) :
    mkSearchTrack { e with formats := F1, url := u1 }
      = mkSearchTrack { e with formats := F2, url := u2 }
    ∧ search_youtube (Except.ok ⟨some [some { e with formats := F1, url := u1 }]⟩)
      = search_youtube (Except.ok ⟨some [some { e with formats := F2, url := u2 }]⟩) := by
  constructor <;> rfl

/-- Entry for the claim C3 counterexample: no formats and no top-level url,
so no audio url is resolvable for it by any policy. -/
def c3entry : SEntry :=
  { id := some "vid3", title := some "NoMedia", album := none, thumbnail := none,
    duration := JNum.absent, url := none, formats := [] }

/-- Claim C3 counterexample: an entry for which no usable audio url exists
is not omitted from the search results; a track is emitted for it, and that
track carries no audio url. -/
theorem claim3_counterexample :
    c3entry.formats = [] ∧ c3entry.url = none
    ∧ search_youtube (Except.ok ⟨some [some c3entry]⟩)
        = [{ id := some "vid3", title := "NoMedia", artist := "Unknown Artist",
             album := "Unknown", cover_url := none, duration := 0, quality := "High" }] := by decide

/-- Claim C3 amended: the search path emits exactly one track per non-null
entry, whether or not any audio url is resolvable; only null entries are
omitted, and the emitted tracks have no audio url field. -/
theorem claim3_amended (l : List (Option SEntry)) :
    search_youtube (Except.ok ⟨some l⟩) = (l.filterMap id).map mkSearchTrack := by
  induction l with
  | nil => rfl
  | cons a rest ih =>
    cases a with
    | none => simpa [search_youtube, buildTracks, List.filterMap_cons] using ih
    | some e => simpa [search_youtube, buildTracks, List.filterMap_cons] using ih

/-- Claim C4: extract_artist tries the hyphen, colon and parenthesis
patterns in that fixed order and returns the stripped capture of the first
that matches, the literal fallback otherwise; with the concrete cases of
the claim. -/
theorem claim4_extract_artist :
    (∀ t : String, ∀ g, reHyphen t.data = some g →
        extract_artist t = String.mk (pyStrip g))
    ∧ (∀ t : String, ∀ g, reHyphen t.data = none → reColon t.data = some g →
        extract_artist t = String.mk (pyStrip g))
    ∧ (∀ t : String, ∀ g, reHyphen t.data = none → reColon t.data = none →
        reParen t.data = some g → extract_artist t = String.mk (pyStrip g))
    ∧ (∀ t : String, reHyphen t.data = none → reColon t.data = none →
        reParen t.data = none → extract_artist t = "Unknown Artist")
    ∧ extract_artist "Artist - Song (Live)" = "Artist"
    ∧ extract_artist "Topic: Explanation" = "Topic"
    ∧ extract_artist "Random Title No Punctuation" = "Unknown Artist" := by
  refine ⟨?_, ?_, ?_, ?_, by decide, by decide, by decide⟩
  · intro t g hA
    unfold extract_artist
    rw [hA]
  · intro t g hA hB
    unfold extract_artist
    rw [hA, hB]
  · intro t g hA hB hC
    unfold extract_artist
    rw [hA, hB, hC]
  · intro t hA hB hC
    unfold extract_artist
    rw [hA, hB, hC]

/-- Witness for claim C4: the colon pattern fires on a title with no
hyphen, through the second conjunct of the claim theorem. -/
theorem claim4_witness :
    reHyphen (String.data "Topic: Explanation") = none
    ∧ extract_artist "Topic: Explanation" = String.mk (pyStrip (String.data "Topic")) :=
  ⟨by decide,
    claim4_extract_artist.2.1 "Topic: Explanation" (String.data "Topic") (by decide) (by decide)⟩

/-- Claim C5: an engine failure on the search path is swallowed; the
endpoint answers with the success envelope and an empty track list. -/
theorem claim5_search_engine_failure (q err : String) (hq : q ≠ "") :
    search q (Except.error err)
      = HttpResult.ok { status := "success", tracks := [], artists := [], albums := [] } := by
  unfold search
  rw [if_neg hq]
  rfl

/-- Witness for claim C5 at a concrete query and failure. -/
theorem claim5_witness :
    search "adele" (Except.error "network unreachable")
      = HttpResult.ok { status := "success", tracks := [], artists := [], albums := [] } :=
  claim5_search_engine_failure "adele" "network unreachable" (by decide)

/-- Claim C6: the stream and download endpoints answer 404 exactly when the
resolver yields no non-empty url, and otherwise answer the success envelope
carrying the resolved url. -/
theorem claim6_stream_download_404 (engine : Except String Info) (q : String) :
    (get_stream engine q = HttpResult.httpError 404 "Stream URL not found"
      ↔ ¬ ∃ u, get_stream_url_full engine q = some u ∧ u ≠ "")
    ∧ (∀ u, get_stream_url_full engine q = some u → u ≠ "" →
        get_stream engine q = HttpResult.ok
          { status := "success", stream_url := u, quality := q, expires_at := none })
    ∧ (get_download engine q = HttpResult.httpError 404 "Download URL not found"
      ↔ ¬ ∃ u, get_stream_url_full engine q = some u ∧ u ≠ "")
    ∧ (∀ u, get_stream_url_full engine q = some u → u ≠ "" →
        get_download engine q = HttpResult.ok
          { status := "success", download_url := u, quality := q,
            file_size := none, expires_at := none }) := by
  rcases hr : get_stream_url_full engine q with _ | u
  · simp [get_stream, get_download, hr]
  · by_cases hu : u = ""
    · subst hu
      simp [get_stream, get_download, hr]
    · simp [get_stream, get_download, hr, hu]

/-- Extraction result for the claim C6 witness. -/
def c6winfo : Info :=
  { title := some "t", album := none, thumbnail := none, duration := JNum.absent,
    abr := JNum.absent,
    formats := [{ acodec := some "opus", vcodec := some "none", abr := JNum.num 128, url := some "http://w6" }],
    url := some "http://top6" }

/-- Witness for claim C6: a resolvable entry gives a success envelope. -/
theorem claim6_witness :
    get_stream (Except.ok c6winfo) "high"
      = HttpResult.ok { status := "success", stream_url := "http://w6", quality := "high", expires_at := none } :=
  (claim6_stream_download_404 (Except.ok c6winfo) "high").2.1 "http://w6" (by decide) (by decide)

/-- Claim C7: a missing or null duration yields 0, a numeric duration d
yields d * 1000, both on the search path and on the track detail path. -/
theorem claim7_duration (e : SEntry) (tid : String) (info : Info) :
    ((e.duration = JNum.absent ∨ e.duration = JNum.null) → (mkSearchTrack e).duration = 0)
    ∧ (∀ d : Int, e.duration = JNum.num d → (mkSearchTrack e).duration = d * 1000)
    ∧ ((info.duration = JNum.absent ∨ info.duration = JNum.null) →
        ∀ b, get_track tid (Except.ok info) = HttpResult.ok b → b.duration = 0)
    ∧ (∀ d : Int, info.duration = JNum.num d →
        ∀ b, get_track tid (Except.ok info) = HttpResult.ok b → b.duration = d * 1000) := by
  refine ⟨?_, ?_, ?_, ?_⟩
  · rintro (h | h) <;> simp [mkSearchTrack, durMs, h, jGetD, pyOrZero]
  · intro d h
    by_cases hd : d = 0 <;> simp [mkSearchTrack, durMs, h, jGetD, pyOrZero, hd]
  · rintro (h | h) <;>
      (intro b hb
       unfold get_track at hb
       injection hb with hb2
       rw [← hb2]
       simp [durMs, h, jGetD, pyOrZero])
  · intro d h b hb
    unfold get_track at hb
    injection hb with hb2
    rw [← hb2]
    by_cases hd : d = 0 <;> simp [durMs, h, jGetD, pyOrZero, hd]

/-- Entry for the claim C7 witness. -/
def c7entry : SEntry :=
  { id := none, title := none, album := none, thumbnail := none,
    duration := JNum.num 7, url := none, formats := [] }

/-- Extraction result for the claim C7 witness. -/
def c7info : Info :=
  { title := none, album := none, thumbnail := none, duration := JNum.null,
    abr := JNum.absent, formats := [], url := none }

/-- Witness for claim C7: a seven second duration is reported as 7000. -/
theorem claim7_witness :
    (mkSearchTrack c7entry).duration = 7 * 1000 :=
  (claim7_duration c7entry "x" c7info).2.1 7 rfl

/-- Claim C8: a failure inside the single-track endpoint surfaces as an
HTTP error whose detail is exactly the raw exception text. -/
theorem claim8_track_error (tid e : String) :
    get_track tid (Except.error e) = HttpResult.httpError 404 e := rfl

/-- Claim C9: the quality argument never influences url selection; the two
endpoints run the identical selection for any two quality values and only
echo the argument back in the quality field of the response. -/
theorem claim9_quality_independent (engine : Except String Info) (q1 q2 : String) :
    get_stream_url_full engine q1 = get_stream_url_full engine q2
    ∧ (∀ b, get_stream engine q1 = HttpResult.ok b →
        b.quality = q1 ∧ get_stream engine q2
          = HttpResult.ok
              { status := b.status, stream_url := b.stream_url,
                quality := q2, expires_at := b.expires_at })
    ∧ (∀ b, get_download engine q1 = HttpResult.ok b →
        b.quality = q1 ∧ get_download engine q2
          = HttpResult.ok
              { status := b.status, download_url := b.download_url,
                quality := q2, file_size := b.file_size, expires_at := b.expires_at })
    ∧ (∀ s d, get_stream engine q1 = HttpResult.httpError s d
        ↔ get_stream engine q2 = HttpResult.httpError s d)
    ∧ (∀ s d, get_download engine q1 = HttpResult.httpError s d
        ↔ get_download engine q2 = HttpResult.httpError s d) := by
  have hsame : get_stream_url_full engine q1 = get_stream_url_full engine q2 := rfl
  refine ⟨hsame, ?_, ?_, ?_, ?_⟩
  all_goals rcases hr : get_stream_url_full engine q1 with _ | u
  all_goals try (have hr2 : get_stream_url_full engine q2 = none := hsame.symm.trans hr)
  all_goals try (have hr2 : get_stream_url_full engine q2 = some u := hsame.symm.trans hr)
  · simp [get_stream, hr, hr2]
  · by_cases hu : u = ""
    · subst hu; simp [get_stream, hr, hr2]
    · intro b hb
      simp [get_stream, hr, hr2, hu] at hb ⊢
      rw [← hb]
      simp
  · simp [get_download, hr, hr2]
  · by_cases hu : u = ""
    · subst hu; simp [get_download, hr, hr2]
    · intro b hb
      simp [get_download, hr, hr2, hu] at hb ⊢
      rw [← hb]
      simp
  · simp [get_stream, hr, hr2]
  · by_cases hu : u = ""
    · subst hu; simp [get_stream, hr, hr2]
    · simp [get_stream, hr, hr2, hu]
  · simp [get_download, hr, hr2]
  · by_cases hu : u = ""
    · subst hu; simp [get_download, hr, hr2]
    · simp [get_download, hr, hr2, hu]

/-- Extraction result for the claim C9 witness. -/
def c9winfo : Info :=
  { title := none, album := none, thumbnail := none, duration := JNum.absent,
    abr := JNum.absent,
    formats := [{ acodec := none, vcodec := none, abr := JNum.num 96, url := some "http://w9" }],
    url := none }

/-- Witness for claim C9: two requests for the same track with different
quality values resolve the same url, each echoed with its own quality. -/
theorem claim9_witness :
    ({ status := "success", stream_url := "http://w9", quality := "hi", expires_at := none } : StreamBody).quality = "hi"
    ∧ get_stream (Except.ok c9winfo) "lo"
        = HttpResult.ok
            { status := "success", stream_url := "http://w9", quality := "lo", expires_at := none } :=
  (claim9_quality_independent (Except.ok c9winfo) "hi" "lo").2.1
    { status := "success", stream_url := "http://w9", quality := "hi", expires_at := none } (by decide)

/-- Format with an explicitly null bitrate for claim C10. -/
def c10fmt1 : Format :=
  { acodec := some "mp4a.40.2", vcodec := some "none", abr := JNum.null, url := some "http://a1" }

/-- Format with a numeric bitrate for claim C10. -/
def c10fmt2 : Format :=
  { acodec := some "opus", vcodec := some "none", abr := JNum.num 160, url := some "http://a2" }

/-- Extraction result for claim C10: two usable audio formats, the first
with an explicitly null bitrate. -/
def c10info : Info :=
  { title := some "Song", album := none, thumbnail := none, duration := JNum.num 200,
    abr := JNum.absent, formats := [c10fmt1, c10fmt2], url := some "http://fallback" }

/-- The same extraction with the null bitrate field missing instead. -/
def c10infoAbsent : Info :=
  { c10info with formats := [{ c10fmt1 with abr := JNum.absent }, c10fmt2] }

/-- Claim C10: the bitrate default of get_stream_url covers only a missing
abr field; with an explicitly null abr among audio-present formats the max
comparison raises, the handler yields no url, and the stream and download
requests answer 404 even though usable audio formats exist, while the same
input with the abr field missing resolves the maximal format. -/
theorem claim10_null_abr_raises :
    audioFormats c10info = [c10fmt1, c10fmt2]
    ∧ c10fmt1.abr = JNum.null
    ∧ c10fmt2.url = some "http://a2"
    ∧ get_stream_url c10info "high" = none
    ∧ get_stream (Except.ok c10info) "high" = HttpResult.httpError 404 "Stream URL not found"
    ∧ get_download (Except.ok c10info) "high" = HttpResult.httpError 404 "Download URL not found"
    ∧ get_stream_url c10infoAbsent "high" = some "http://a2" := by decide

end HifiBackend
